import Mathlib

/-!
Verification of the submission validation and tiering engine of
`validation_engine.py` (classes `BeerValidationEngine` and
`SubmissionProcessor`).

The Python code is embedded shallowly:

* the backing MySQL tables become explicit Lean lists inside a `Store`
  structure, and every SQL statement becomes a pure list operation on it;
* `difflib.SequenceMatcher(None, a, b).ratio()` is embedded as `ratioQ`
  over `List Char`, following the documented algorithm for inputs without
  junk elements (the autojunk heuristic only fires on sequences of 200+
  elements and is not modelled);
* Python floats are modelled as exact rationals (`ℚ`);
* a Python exception is modelled as an `Except String` value carrying
  `str(e)`; the fault points of `process_submission` (an exception inside
  the validation `try:` block, inside `_store_submission`, or inside the
  tier-specific action) are injected through a `Faults` record;
* a dictionary key that may be absent becomes an `Option` field, and a
  `d['k']` access on a possibly-absent key becomes a `KeyError` value of
  the `Except` monad.

Note on the source text: in the repository file, the tail of
`_validate_beer` (the `if brewery_result:` block and the final
`new_brewery` return) is dedented to class-body level, which is a Python
SyntaxError ('return' outside function, line 180): the module cannot be
imported, and the method as parsed would end at the brewery `fetchone()`.
The `_validate_beer` below embeds the method's documented intent (its
docstring lists all four statuses, and the dedented returns reference the
method's local variables), i.e. the file with the dedent slip undone;
claim C6 is settled as a code bug on that basis.
-/

namespace BeerValidation

/-! ### String primitives

Python's `str.lower()/upper()/strip()`, slicing, and SQL's
`LOWER/UPPER/TRIM` and prefix `LIKE`, embedded structurally over the
character list of a `String` (ASCII case mapping, as in the `Char`
primitives) so that every definition evaluates by kernel reduction. -/

/-- Python `s.lower()` / SQL `LOWER`. -/
def strLower (s : String) : String := ⟨s.data.map Char.toLower⟩

/-- Python `s.upper()` / SQL `UPPER`. -/
def strUpper (s : String) : String := ⟨s.data.map Char.toUpper⟩

/-- Python `s.strip()` / SQL `TRIM`: drop leading and trailing whitespace. -/
def strTrim (s : String) : String :=
  ⟨(((s.data.dropWhile Char.isWhitespace).reverse.dropWhile
      Char.isWhitespace).reverse)⟩

/-- Python `s[:n]` by characters. -/
def strTake (s : String) (n : Nat) : String := ⟨s.data.take n⟩

/-- SQL `column LIKE 'p%'`: prefix test. -/
def strIsPrefixOf (p s : String) : Bool := p.data.isPrefixOf s.data

/-! ### difflib.SequenceMatcher, restricted to no-junk inputs

`matchLenAt a b ahi bhi i j` is the length of the common run of `a` and
`b` starting at positions `i`, `j`, truncated at the window bounds
`ahi`, `bhi`. -/

def matchLenFuel (a b : List Char) (ahi bhi : Nat) :
    Nat → Nat → Nat → Nat
  | 0, _, _ => 0
  | fuel + 1, i, j =>
    if i < ahi ∧ j < bhi ∧ (a[i]?).isSome ∧ a[i]? = b[j]? then
      matchLenFuel a b ahi bhi fuel (i + 1) (j + 1) + 1
    else 0

/-- The run cannot step past `ahi`, so `ahi - i` fuel computes it fully. -/
def matchLenAt (a b : List Char) (ahi bhi i j : Nat) : Nat :=
  matchLenFuel a b ahi bhi (ahi - i) i j

theorem matchLenFuel_le (a b : List Char) (ahi bhi : Nat) :
    ∀ fuel i j, matchLenFuel a b ahi bhi fuel i j ≤ ahi - i := by
  intro fuel
  induction fuel with
  | zero => intro i j; exact Nat.zero_le _
  | succ fuel ih =>
    intro i j
    rw [matchLenFuel]
    split
    · rename_i h
      have := ih (i + 1) (j + 1)
      omega
    · exact Nat.zero_le _

theorem matchLenFuel_right (a b : List Char) (ahi bhi : Nat) :
    ∀ fuel i j, matchLenFuel a b ahi bhi fuel i j = 0 ∨
      j + matchLenFuel a b ahi bhi fuel i j ≤ bhi := by
  intro fuel
  induction fuel with
  | zero => intro i j; exact Or.inl rfl
  | succ fuel ih =>
    intro i j
    rw [matchLenFuel]
    split
    · rename_i h
      right
      rcases ih (i + 1) (j + 1) with h0 | hle
      · rw [h0]
        omega
      · omega
    · exact Or.inl rfl

theorem matchLenAt_le_left (a b : List Char) (ahi bhi : Nat) :
    ∀ i j, i + matchLenAt a b ahi bhi i j ≤ ahi ∨ matchLenAt a b ahi bhi i j = 0 := by
  intro i j
  have := matchLenFuel_le a b ahi bhi (ahi - i) i j
  rw [matchLenAt]
  omega

theorem matchLenAt_le_right (a b : List Char) (ahi bhi : Nat) :
    ∀ i j, j + matchLenAt a b ahi bhi i j ≤ bhi ∨ matchLenAt a b ahi bhi i j = 0 := by
  intro i j
  have h := matchLenFuel_right a b ahi bhi (ahi - i) i j
  rw [matchLenAt]
  rcases h with h | h
  · right
    exact h
  · left
    exact h

/-- The `(i, j)` index pairs of the window, in the order `find_longest_match`
scans them: `i` ascending, then `j` ascending. -/
def lexPairs (alo ahi blo bhi : Nat) : List (Nat × Nat) :=
  (List.range' alo (ahi - alo)).flatMap fun i =>
    (List.range' blo (bhi - blo)).map fun j => (i, j)

/-- One step of the `find_longest_match` scan: update the best block only on
a strictly longer run, exactly like the Python `if k > bestsize`. -/
def flmStep (a b : List Char) (ahi bhi : Nat) (best : Nat × Nat × Nat)
    (ij : Nat × Nat) : Nat × Nat × Nat :=
  let k := matchLenAt a b ahi bhi ij.1 ij.2
  if best.2.2 < k then (ij.1, ij.2, k) else best

/-- The `find_longest_match` of `difflib` on junk-free input: among the longest
common runs inside the window, the one starting earliest in `a`, then
earliest in `b`.  Returns `(besti, bestj, bestsize)`. -/
def findLongestMatch (a b : List Char) (alo ahi blo bhi : Nat) : Nat × Nat × Nat :=
  (lexPairs alo ahi blo bhi).foldl (flmStep a b ahi bhi) (alo, blo, 0)

theorem mem_lexPairs {alo ahi blo bhi : Nat} {p : Nat × Nat} :
    p ∈ lexPairs alo ahi blo bhi →
    alo ≤ p.1 ∧ p.1 < ahi ∧ blo ≤ p.2 ∧ p.2 < bhi := by
  intro hp
  rw [lexPairs, List.mem_flatMap] at hp
  obtain ⟨i, hi, hp⟩ := hp
  rw [List.mem_map] at hp
  obtain ⟨j, hj, rfl⟩ := hp
  rw [List.mem_range'] at hi hj
  obtain ⟨ki, hki, rfl⟩ := hi
  obtain ⟨kj, hkj, rfl⟩ := hj
  refine ⟨by omega, by omega, by omega, by omega⟩

/-- Invariant carried by the `findLongestMatch` fold: the accumulator either
still has size 0 or records a block lying inside the window. -/
def FlmInv (alo ahi blo bhi : Nat) (st : Nat × Nat × Nat) : Prop :=
  st.2.2 = 0 ∨
    (alo ≤ st.1 ∧ st.1 + st.2.2 ≤ ahi ∧ blo ≤ st.2.1 ∧ st.2.1 + st.2.2 ≤ bhi)

theorem flmStep_inv {a b : List Char} {alo ahi blo bhi : Nat}
    {st : Nat × Nat × Nat} {p : Nat × Nat}
    (hp : alo ≤ p.1 ∧ p.1 < ahi ∧ blo ≤ p.2 ∧ p.2 < bhi)
    (hst : FlmInv alo ahi blo bhi st) :
    FlmInv alo ahi blo bhi (flmStep a b ahi bhi st p) := by
  rw [flmStep]
  by_cases hk : st.2.2 < matchLenAt a b ahi bhi p.1 p.2
  · simp only [if_pos hk]
    right
    have h1 := matchLenAt_le_left a b ahi bhi p.1 p.2
    have h2 := matchLenAt_le_right a b ahi bhi p.1 p.2
    refine ⟨hp.1, ?_, hp.2.2.1, ?_⟩
    · rcases h1 with h1 | h1
      · exact h1
      · omega
    · rcases h2 with h2 | h2
      · exact h2
      · omega
  · simp only [if_neg hk]
    exact hst

theorem foldl_flmStep_inv (a b : List Char) (alo ahi blo bhi : Nat) :
    ∀ (l : List (Nat × Nat)) (st : Nat × Nat × Nat),
      (∀ p ∈ l, alo ≤ p.1 ∧ p.1 < ahi ∧ blo ≤ p.2 ∧ p.2 < bhi) →
      FlmInv alo ahi blo bhi st →
      FlmInv alo ahi blo bhi (l.foldl (flmStep a b ahi bhi) st) := by
  intro l
  induction l with
  | nil => intro st _ hst; exact hst
  | cons p l ih =>
    intro st hmem hst
    rw [List.foldl_cons]
    exact ih _ (fun q hq => hmem q (List.mem_cons_of_mem _ hq))
      (flmStep_inv (hmem p (List.mem_cons_self _ _)) hst)

theorem findLongestMatch_inv (a b : List Char) (alo ahi blo bhi : Nat) :
    FlmInv alo ahi blo bhi (findLongestMatch a b alo ahi blo bhi) := by
  rw [findLongestMatch]
  exact foldl_flmStep_inv a b alo ahi blo bhi _ _
    (fun p hp => mem_lexPairs hp) (Or.inl rfl)

/-- The recursive block decomposition of `get_matching_blocks`: take the
longest match of the window, recurse on the parts left and right of it.
The fuel argument dominates the recursion depth; `a.length + 1` is always
enough because each recursive window is strictly shorter in `a`. -/
def matchingBlocksAux (a b : List Char) :
    Nat → Nat → Nat → Nat → Nat → List (Nat × Nat × Nat)
  | 0, _, _, _, _ => []
  | fuel + 1, alo, ahi, blo, bhi =>
    let r := findLongestMatch a b alo ahi blo bhi
    if r.2.2 = 0 then []
    else
      matchingBlocksAux a b fuel alo r.1 blo r.2.1 ++
        r :: matchingBlocksAux a b fuel (r.1 + r.2.2) ahi (r.2.1 + r.2.2) bhi

/-- Total number of matched elements, the `matches` quantity of
`SequenceMatcher.ratio` (the zero-length sentinel block and the merging of
adjacent blocks in `get_matching_blocks` do not change this sum). -/
def matchesTotal (a b : List Char) : Nat :=
  ((matchingBlocksAux a b (a.length + 1) 0 a.length 0 b.length).map
    (fun bl => bl.2.2)).sum

theorem matchingBlocksAux_size_le (a b : List Char) :
    ∀ (fuel alo ahi blo bhi : Nat),
      ((matchingBlocksAux a b fuel alo ahi blo bhi).map (fun bl => bl.2.2)).sum
          ≤ ahi - alo ∧
      ((matchingBlocksAux a b fuel alo ahi blo bhi).map (fun bl => bl.2.2)).sum
          ≤ bhi - blo := by
  intro fuel
  induction fuel with
  | zero =>
    intro alo ahi blo bhi
    simp [matchingBlocksAux]
  | succ fuel ih =>
    intro alo ahi blo bhi
    rw [matchingBlocksAux]
    by_cases h0 : (findLongestMatch a b alo ahi blo bhi).2.2 = 0
    · simp [h0]
    · simp only [if_neg h0, List.map_append, List.map_cons, List.sum_append,
        List.sum_cons]
      have hinv := findLongestMatch_inv a b alo ahi blo bhi
      rcases hinv with hinv | hinv
      · exact absurd hinv h0
      · obtain ⟨hi1, hi2, hj1, hj2⟩ := hinv
        have hL := ih alo (findLongestMatch a b alo ahi blo bhi).1 blo
          (findLongestMatch a b alo ahi blo bhi).2.1
        have hR := ih ((findLongestMatch a b alo ahi blo bhi).1 +
            (findLongestMatch a b alo ahi blo bhi).2.2) ahi
          ((findLongestMatch a b alo ahi blo bhi).2.1 +
            (findLongestMatch a b alo ahi blo bhi).2.2) bhi
        constructor
        · omega
        · omega

theorem matchesTotal_le_left (a b : List Char) :
    matchesTotal a b ≤ a.length := by
  have h := (matchingBlocksAux_size_le a b (a.length + 1) 0 a.length 0 b.length).1
  simpa [matchesTotal] using h

theorem matchesTotal_le_right (a b : List Char) :
    matchesTotal a b ≤ b.length := by
  have h := (matchingBlocksAux_size_le a b (a.length + 1) 0 a.length 0 b.length).2
  simpa [matchesTotal] using h

/-- The ratio `SequenceMatcher(None, a, b).ratio()`: `2.0 * M / T` where `M` is the
total size of the matched blocks and `T` the total length, and `1.0` when
both sequences are empty (`_calculate_ratio`). -/
def ratioQ (a b : List Char) : ℚ :=
  if a.length + b.length = 0 then 1
  else 2 * (matchesTotal a b : ℚ) / ((a.length : ℚ) + (b.length : ℚ))

theorem ratioQ_nonneg (a b : List Char) : 0 ≤ ratioQ a b := by
  rw [ratioQ]
  by_cases h : a.length + b.length = 0
  · rw [if_pos h]; norm_num
  · rw [if_neg h]
    apply div_nonneg
    · positivity
    · have : 0 < a.length + b.length := Nat.pos_of_ne_zero h
      have : (0 : ℚ) < (a.length : ℚ) + (b.length : ℚ) := by
        exact_mod_cast this
      linarith

theorem ratioQ_le_one (a b : List Char) : ratioQ a b ≤ 1 := by
  rw [ratioQ]
  by_cases h : a.length + b.length = 0
  · rw [if_pos h]
  · rw [if_neg h]
    have hpos : (0 : ℚ) < (a.length : ℚ) + (b.length : ℚ) := by
      have : 0 < a.length + b.length := Nat.pos_of_ne_zero h
      exact_mod_cast this
    rw [div_le_one hpos]
    have h1 := matchesTotal_le_left a b
    have h2 := matchesTotal_le_right a b
    have h1' : (matchesTotal a b : ℚ) ≤ (a.length : ℚ) := by exact_mod_cast h1
    have h2' : (matchesTotal a b : ℚ) ≤ (b.length : ℚ) := by exact_mod_cast h2
    linarith

/-! ### Data model

Rows of the MySQL tables touched by the engine, and the raw submission
mapping.  An `Option` field is a dictionary key / column that may be
absent (`None`). -/

/-- A row of the `pubs` table; `bottle`/`tap`/`cask`/`can` are the format
availability columns set by the tier-1 action. -/
structure Pub where
  pub_id : Nat
  name : String
  address : String
  postcode : String
  bottle : Bool
  tap : Bool
  cask : Bool
  can : Bool
deriving DecidableEq

/-- A row of the `beers` table. -/
structure Beer where
  beer_id : Nat
  brewery : String
  name : String
  style : String
  abv : Option ℚ
deriving DecidableEq

/-- A row of the `pubs_updates` availability table. -/
structure PubsUpdate where
  pub_id : Nat
  beer_id : Nat
  beer_format : String
  update_time : Nat
deriving DecidableEq

/-- The raw user submission mapping (`submission_data`); every key may be
absent. `pub_id` is the dropdown selection. -/
structure SubmissionData where
  pub_id : Option Nat
  pub_name : Option String
  address : Option String
  postcode : Option String
  brewery : Option String
  beer_name : Option String
  beer_style : Option String
  beer_abv : Option ℚ
  beer_format : Option String
deriving DecidableEq

/-- Submitter metadata (`user_info`). -/
structure UserInfo where
  ip : Option String
  user_agent : Option String
deriving DecidableEq

/-- A row of the `submissions` audit table: the raw submitted fields plus
the resolved tier/status, submitter metadata and `NOW()`. -/
structure SubmissionRow where
  data : SubmissionData
  validation_tier : Nat
  validation_status : String
  user_ip : Option String
  user_agent : Option String
  submission_time : Nat
deriving DecidableEq

/-- A row of the `validation_queue` table. -/
structure QueueRow where
  submission_id : Nat
  validation_type : String
  scheduled_approval_time : Option Nat
  review_reasons : Option String
  status : String
deriving DecidableEq

/-- The backing database state. -/
structure Store where
  pubs : List Pub
  beers : List Beer
  submissions : List SubmissionRow
  validation_queue : List QueueRow
  pubs_updates : List PubsUpdate
deriving DecidableEq

/-! ### Entity Normalizer (`_extract_pub_data` / `_extract_beer_data`) -/

/-- The cleaned pub descriptor. -/
structure PubData where
  pub_id : Option Nat
  name : String
  address : String
  postcode : String
deriving DecidableEq

/-- The cleaned beer descriptor. -/
structure BeerData where
  brewery : String
  beer_name : String
  style : String
  abv : Option ℚ
  format : String
deriving DecidableEq

def _extract_pub_data (submission : SubmissionData) : PubData :=
  { pub_id := submission.pub_id
    name := strTrim (submission.pub_name.getD "")
    address := strTrim (submission.address.getD "")
    postcode := strUpper (strTrim (submission.postcode.getD "")) }

def _extract_beer_data (submission : SubmissionData) : BeerData :=
  { brewery := strTrim (submission.brewery.getD "")
    beer_name := strTrim (submission.beer_name.getD "")
    style := strTrim (submission.beer_style.getD "")
    abv := submission.beer_abv
    format := strLower (strTrim (submission.beer_format.getD "")) }

/-! ### Pub Matcher (`_validate_pub` / `_find_similar_pubs`) -/

inductive PubStatus where
  | existing
  | similar
  | new
deriving DecidableEq

inductive BeerStatus where
  | existing
  | newBeerExistingBrewery
  | newBrewery
  | incomplete
deriving DecidableEq

/-- One element of the `similar_matches` list built by
`_find_similar_pubs`. -/
structure SimilarMatch where
  pub_id : Nat
  name : String
  address : String
  postcode : String
  confidence : ℚ
  name_similarity : ℚ
  postcode_similarity : ℚ
deriving DecidableEq

/-- The result dictionary of `_validate_pub`; `Option`/empty fields model
keys present only in some of its return statements. -/
structure PubResult where
  status : PubStatus
  pub_id : Option Nat
  confidence : ℚ
  matched_name : Option String
  -- the dictionary key is `matches`; that word is reserved in Lean
  similar_matches : Option (List SimilarMatch)
deriving DecidableEq

/-- The result dictionary of `_validate_beer` (the `incomplete` return
carries no confidence key, hence `Option ℚ`). -/
structure BeerResult where
  status : BeerStatus
  beer_id : Option Nat
  confidence : Option ℚ
  matched_data : Option Beer
  matched_brewery : Option String
deriving DecidableEq

/-- Python truthiness of `pub_data['pub_id']` (absent or zero is falsy). -/
def pubIdTruthy : Option Nat → Bool
  | some n => n != 0
  | none => false

/-- Python `pub_data['postcode'][:3] if pub_data['postcode'] else ''`. -/
def postcodeArea (postcode : String) : String :=
  if postcode ≠ "" then strTake postcode 3 else ""

/-- Candidate pool: `SELECT ... FROM pubs WHERE postcode LIKE '<area>%'
LIMIT 20`. -/
def fuzzyCandidates (store : Store) (pd : PubData) : List Pub :=
  (store.pubs.filter fun p =>
    strIsPrefixOf (postcodeArea pd.postcode) p.postcode).take 20

/-- The per-candidate similarity computation of the `_find_similar_pubs`
loop body. -/
def similarMatchOf (pd : PubData) (candidate : Pub) : SimilarMatch :=
  let ns := ratioQ (strLower pd.name).data (strLower candidate.name).data
  let ps := ratioQ pd.postcode.data candidate.postcode.data
  { pub_id := candidate.pub_id
    name := candidate.name
    address := candidate.address
    postcode := candidate.postcode
    confidence := ns * 0.7 + ps * 0.3
    name_similarity := ns
    postcode_similarity := ps }

/-- The `similar_matches` list before sorting: candidates kept by the
strict `confidence > 0.8` test. -/
def keptMatches (store : Store) (pd : PubData) : List SimilarMatch :=
  ((fuzzyCandidates store pd).map (similarMatchOf pd)).filter fun m =>
    decide ((0.8 : ℚ) < m.confidence)

/-- The `sort(key=lambda x: x['confidence'], reverse=True)` comparison. -/
def descConfidence (x y : SimilarMatch) : Bool :=
  decide (y.confidence ≤ x.confidence)

def _find_similar_pubs (store : Store) (pd : PubData) : List SimilarMatch :=
  ((keptMatches store pd).mergeSort descConfidence).take 3

/-- SQL `SELECT pub_id, name FROM pubs WHERE pub_id = %s` + `fetchone()`. -/
def pubByIdLookup (store : Store) (pd : PubData) : Option Pub :=
  store.pubs.find? fun p => some p.pub_id == pd.pub_id

/-- SQL `SELECT ... FROM pubs WHERE LOWER(name) = LOWER(%s) AND postcode = %s`
+ `fetchone()`. -/
def pubByNamePostcodeLookup (store : Store) (pd : PubData) : Option Pub :=
  store.pubs.find? fun p =>
    strLower p.name == strLower pd.name && p.postcode == pd.postcode

def _validate_pub (store : Store) (pd : PubData) : PubResult :=
  match (if pubIdTruthy pd.pub_id then pubByIdLookup store pd else none) with
  | some p =>
    { status := .existing, pub_id := some p.pub_id, confidence := 1
      matched_name := some p.name, similar_matches := none }
  | none =>
    match (if pd.name ≠ "" ∧ pd.postcode ≠ "" then
            pubByNamePostcodeLookup store pd
          else none) with
    | some p =>
      { status := .existing, pub_id := some p.pub_id, confidence := 1
        matched_name := some p.name, similar_matches := none }
    | none =>
      match _find_similar_pubs store pd with
      | [] =>
        { status := .new, pub_id := none, confidence := 0
          matched_name := none, similar_matches := none }
      | m :: ms =>
        { status := .similar, pub_id := none, confidence := m.confidence
          matched_name := none, similar_matches := some (m :: ms) }

/-! ### Beer Matcher (`_validate_beer`) -/

/-- SQL `SELECT ... FROM beers WHERE LOWER(brewery) = LOWER(%s) AND LOWER(name)
= LOWER(%s) AND LOWER(TRIM(name)) = LOWER(TRIM(%s))` + `fetchone()`. -/
def beerExactLookup (store : Store) (bd : BeerData) : Option Beer :=
  store.beers.find? fun b =>
    strLower b.brewery == strLower bd.brewery &&
    strLower b.name == strLower bd.beer_name &&
    strLower (strTrim b.name) == strLower (strTrim bd.beer_name)

/-- SQL `SELECT DISTINCT brewery FROM beers WHERE LOWER(TRIM(brewery)) =
LOWER(TRIM(%s))` + `fetchone()`: the stored (canonical) brewery name of the
first matching row. -/
def breweryLookup (store : Store) (bd : BeerData) : Option String :=
  (store.beers.find? fun b =>
    strLower (strTrim b.brewery) == strLower (strTrim bd.brewery)).map
    (·.brewery)

/-- Method `_validate_beer` as documented and evidently intended: the two
fallback returns (`new_beer_existing_brewery`, `new_brewery`) are placed
inside the method.  In the source they are dedented to class level (a
SyntaxError; see the header note), so the repository text itself has no
behavior here — this definition is the one-indentation repair the
docstring ("Returns: existing, new_beer_existing_brewery, new_brewery,
or incomplete") prescribes. -/
def _validate_beer (store : Store) (bd : BeerData) : BeerResult :=
  if bd.brewery = "" ∨ bd.beer_name = "" then
    { status := .incomplete, beer_id := none, confidence := none
      matched_data := none, matched_brewery := none }
  else
    match beerExactLookup store bd with
    | some b =>
      { status := .existing, beer_id := some b.beer_id, confidence := some 1
        matched_data := some b, matched_brewery := none }
    | none =>
      match breweryLookup store bd with
      | some canonical =>
        { status := .newBeerExistingBrewery, beer_id := none
          confidence := some 0.7, matched_data := none
          matched_brewery := some canonical }
      | none =>
        { status := .newBrewery, beer_id := none, confidence := some 0
          matched_data := none, matched_brewery := none }

/-! ### Tier Decision Engine (`_determine_validation_tier`) -/

/-- The result dictionary of `_determine_validation_tier` /
`validate_submission`.  `Option` fields model keys present only in some
tiers (`delay_hours` in tier 2, `reasons` in tier 3, `pub_data`/`beer_data`
absent from the `except` result). -/
structure ValidationResult where
  tier : Nat
  status : String
  message : String
  action : String
  delay_hours : Option Nat
  reasons : Option (List String)
  pub_data : Option PubResult
  beer_data : Option BeerResult
deriving DecidableEq

def _determine_validation_tier (pub_status : PubResult)
    (beer_status : BeerResult) : ValidationResult :=
  if pub_status.status = .existing ∧ beer_status.status = .existing then
    { tier := 1
      status := "auto_approved"
      message := "Approved instantly - we know this pub and beer combination"
      action := "update_database"
      delay_hours := none
      reasons := none
      pub_data := some pub_status
      beer_data := some beer_status }
  else if pub_status.status = .existing ∧
      beer_status.status = .newBeerExistingBrewery then
    { tier := 2
      status := "soft_validation"
      message := "New beer from known brewery - will be approved in 24 hours unless flagged"
      action := "queue_soft_validation"
      delay_hours := some 24
      reasons := none
      pub_data := some pub_status
      beer_data := some beer_status }
  else
    let reasons :=
      (if pub_status.status = .new then ["new pub"]
       else if pub_status.status = .similar then
         ["similar pub found - possible duplicate"]
       else []) ++
      (if beer_status.status = .newBrewery then ["new brewery"]
       else if beer_status.status = .incomplete then
         ["incomplete beer information"]
       else [])
    { tier := 3
      status := "manual_review_required"
      message := "Manual review needed: " ++ String.intercalate ", " reasons
      action := "queue_manual_review"
      delay_hours := none
      reasons := some reasons
      pub_data := some pub_status
      beer_data := some beer_status }

/-! ### validate_submission -/

/-- The body of `validate_submission`'s `try:` block when no exception is
raised: normalize, match pub and beer, decide the tier. -/
def validationPipeline (store : Store) (submission : SubmissionData) :
    ValidationResult :=
  _determine_validation_tier
    (_validate_pub store (_extract_pub_data submission))
    (_validate_beer store (_extract_beer_data submission))

/-- The dictionary returned by `validate_submission`'s `except` clause. -/
def errorValidationResult : ValidationResult :=
  { tier := 3
    status := "error"
    message := "Validation error occurred - defaulting to manual review"
    action := "manual_review"
    delay_hours := none
    reasons := none
    pub_data := none
    beer_data := none }

/-- Function `validate_submission`: the argument is the outcome of the `try:` block,
`.ok` carrying its value, `.error` carrying `str(e)` of an exception
raised anywhere inside it (connection, lookups, tier decision). -/
def validate_submission (attempt : Except String ValidationResult) :
    ValidationResult :=
  match attempt with
  | .ok r => r
  | .error _ => errorValidationResult

/-! ### Submission Processor -/

/-- Exception injection points of `process_submission`: an exception inside
the validation `try:` block, inside `_store_submission`, or inside the
tier-specific action.  Each carries `str(e)`. -/
structure Faults where
  validation : Option String
  storeSubmission : Option String
  tierAction : Option String
deriving DecidableEq

/-- The outcome of `validate_submission`'s `try:` block under the injected
faults. -/
def pipelineAttempt (f : Faults) (store : Store)
    (submission : SubmissionData) : Except String ValidationResult :=
  match f.validation with
  | some e => .error e
  | none => .ok (validationPipeline store submission)

/-- The dictionary returned by `process_submission`. -/
structure ProcessResult where
  success : Bool
  submission_id : Option Nat
  validation_result : Option ValidationResult
  error : Option String
  details : Option String
deriving DecidableEq

/-- Method `process_submission`'s `except` clause: a fixed generic message plus
`'details': str(e)`. -/
def failureResult (e : String) : ProcessResult :=
  { success := false
    submission_id := none
    validation_result := none
    error := some "Failed to process submission"
    details := some e }

/-- The audit row inserted by `_store_submission`: raw submitted fields,
resolved tier/status, submitter metadata, `NOW()`. -/
def auditRow (submission : SubmissionData) (vr : ValidationResult)
    (user : Option UserInfo) (now : Nat) : SubmissionRow :=
  { data := submission
    validation_tier := vr.tier
    validation_status := vr.status
    user_ip := user.bind (·.ip)
    user_agent := user.bind (·.user_agent)
    submission_time := now }

/-- Method `_store_submission`: insert one audit row and return `lastrowid`. -/
def _store_submission (store : Store) (submission : SubmissionData)
    (vr : ValidationResult) (user : Option UserInfo) (now : Nat) :
    Store × Nat :=
  ({ store with
      submissions := store.submissions ++ [auditRow submission vr user now] },
    store.submissions.length + 1)

/-- The four `UPDATE pubs SET <format> = 1 WHERE pub_id = %s` branches;
a `beer_format` equal to none of the four literals updates nothing. -/
def setFormatFlag (beer_format : String) (pid : Nat) (pubs : List Pub) :
    List Pub :=
  if beer_format = "bottle" then
    pubs.map fun p => if p.pub_id = pid then { p with bottle := true } else p
  else if beer_format = "tap" then
    pubs.map fun p => if p.pub_id = pid then { p with tap := true } else p
  else if beer_format = "cask" then
    pubs.map fun p => if p.pub_id = pid then { p with cask := true } else p
  else if beer_format = "can" then
    pubs.map fun p => if p.pub_id = pid then { p with can := true } else p
  else pubs

/-- Does a `pubs_updates` row carry the given (venue, beer, format)
triple? -/
def tripleKey (pid bid : Nat) (beer_format : String) (r : PubsUpdate) :
    Bool :=
  r.pub_id == pid && r.beer_id == bid && r.beer_format == beer_format

/-- Modelled from the spec: the `pubs_updates` table schema is not part of
the repository sources, and `INSERT ... ON DUPLICATE KEY UPDATE update_time
= NOW()` needs its unique key; per the spec's data model ("at most one
active record per (venue, beer, format) triple; re-reporting the same
triple updates recency rather than duplicating") the unique key covers
`(pub_id, beer_id, beer_format)`.  A duplicate key refreshes
`update_time`; otherwise a new row is appended. -/
def upsertPubsUpdate (rows : List PubsUpdate) (pid bid : Nat)
    (beer_format : String) (now : Nat) : List PubsUpdate :=
  if rows.any (tripleKey pid bid beer_format) then
    rows.map fun r =>
      if tripleKey pid bid beer_format r then { r with update_time := now }
      else r
  else
    rows ++ [{ pub_id := pid, beer_id := bid, beer_format := beer_format
               update_time := now }]

/-- Method `_update_database_immediately`, the tier-1 action.  Dictionary reads of
possibly-absent keys (`validation_result['pub_data']['pub_id']`,
`submission_data['beer_format']`, ...) raise `KeyError`; the uncommitted
writes of a raising call are rolled back, so an `.error` leaves the store
untouched. -/
def _update_database_immediately (store : Store)
    (submission : SubmissionData) (vr : ValidationResult) (now : Nat) :
    Except String Store :=
  match vr.pub_data with
  | none => .error "KeyError: pub_data"
  | some pr =>
    match pr.pub_id with
    | none => .error "KeyError: pub_id"
    | some pid =>
      match submission.beer_format with
      | none => .error "KeyError: beer_format"
      | some bf =>
        let store1 := { store with pubs := setFormatFlag bf pid store.pubs }
        match vr.beer_data with
        | none => .error "KeyError: beer_data"
        | some bd =>
          if bd.status = .existing then
            match bd.beer_id with
            | none => .error "KeyError: beer_id"
            | some bid =>
              .ok { store1 with
                pubs_updates :=
                  upsertPubsUpdate store1.pubs_updates pid bid bf now }
          else .ok store1

/-- Method `_queue_soft_validation`: insert a pending `soft_validation` queue row
scheduled `delay_hours` ahead (time is counted in hours). -/
def _queue_soft_validation (store : Store) (sid : Nat)
    (vr : ValidationResult) (now : Nat) : Except String Store :=
  match vr.delay_hours with
  | none => .error "KeyError: delay_hours"
  | some d =>
    .ok { store with
      validation_queue := store.validation_queue ++
        [{ submission_id := sid, validation_type := "soft_validation"
           scheduled_approval_time := some (now + d), review_reasons := none
           status := "pending" }] }

/-- Method `_queue_manual_review`: insert a pending `manual_review` queue row with
the comma-joined reasons. -/
def _queue_manual_review (store : Store) (sid : Nat)
    (vr : ValidationResult) : Except String Store :=
  match vr.reasons with
  | none => .error "KeyError: reasons"
  | some rs =>
    .ok { store with
      validation_queue := store.validation_queue ++
        [{ submission_id := sid, validation_type := "manual_review"
           scheduled_approval_time := none
           review_reasons := some (String.intercalate "," rs)
           status := "pending" }] }

/-- Step 3 of `process_submission`: dispatch on the decided action (an
action matching none of the three strings falls through the `elif` chain
and does nothing), under the injected tier-action fault. -/
def tierActionStep (f : Faults) (store1 : Store)
    (submission : SubmissionData) (vr : ValidationResult) (sid now : Nat) :
    Except String Store :=
  match f.tierAction with
  | some e => .error e
  | none =>
    if vr.action = "update_database" then
      _update_database_immediately store1 submission vr now
    else if vr.action = "queue_soft_validation" then
      _queue_soft_validation store1 sid vr now
    else if vr.action = "queue_manual_review" then
      _queue_manual_review store1 sid vr
    else .ok store1

/-- The dictionary returned on the happy path (step 4). -/
def successResult (sid : Nat) (vr : ValidationResult) : ProcessResult :=
  { success := true
    submission_id := some sid
    validation_result := some vr
    error := none
    details := none }

/-- Steps 3-4 of `process_submission`, after the audit row was committed:
run the tier action; its exception reaches the outer `except` (the audit
row persists), otherwise report success. -/
def processAfterStore (f : Faults) (store1 : Store)
    (submission : SubmissionData) (vr : ValidationResult) (sid now : Nat) :
    Store × ProcessResult :=
  match tierActionStep f store1 submission vr sid now with
  | .error e => (store1, failureResult e)
  | .ok store2 => (store2, successResult sid vr)

/-- Method `process_submission`: validate (its own `try` swallows validation
exceptions), store the audit row, dispatch on the decided action, and
report.  An exception in steps 2-3 is caught by the outer `except` and
returned as `failureResult`; the audit row, once committed, persists. -/
def process_submission (f : Faults) (store : Store)
    (submission : SubmissionData) (user : Option UserInfo) (now : Nat) :
    Store × ProcessResult :=
  let vr := validate_submission (pipelineAttempt f store submission)
  match f.storeSubmission with
  | some e => (store, failureResult e)
  | none =>
    let stored := _store_submission store submission vr user now
    processAfterStore f stored.1 submission vr stored.2 now

/-! ### Frame lemmas for the persistence steps -/

theorem update_db_frame {store : Store} {submission : SubmissionData}
    {vr : ValidationResult} {now : Nat} {s' : Store}
    (h : _update_database_immediately store submission vr now =
      Except.ok s') :
    s'.submissions = store.submissions ∧
    s'.validation_queue = store.validation_queue ∧
    s'.beers = store.beers := by
  unfold _update_database_immediately at h
  repeat' split at h
  all_goals simp_all
  all_goals subst h
  all_goals exact ⟨rfl, rfl, rfl⟩

theorem queue_soft_frame {store : Store} {sid : Nat}
    {vr : ValidationResult} {now : Nat} {s' : Store}
    (h : _queue_soft_validation store sid vr now = Except.ok s') :
    s'.submissions = store.submissions ∧ s'.pubs = store.pubs ∧
    s'.pubs_updates = store.pubs_updates ∧ s'.beers = store.beers := by
  unfold _queue_soft_validation at h
  split at h
  · simp_all
  · simp only [Except.ok.injEq] at h
    subst h
    exact ⟨rfl, rfl, rfl, rfl⟩

theorem queue_manual_frame {store : Store} {sid : Nat}
    {vr : ValidationResult} {s' : Store}
    (h : _queue_manual_review store sid vr = Except.ok s') :
    s'.submissions = store.submissions ∧ s'.pubs = store.pubs ∧
    s'.pubs_updates = store.pubs_updates ∧ s'.beers = store.beers := by
  unfold _queue_manual_review at h
  split at h
  · simp_all
  · simp only [Except.ok.injEq] at h
    subst h
    exact ⟨rfl, rfl, rfl, rfl⟩

theorem tierActionStep_submissions {f : Faults} {store1 : Store}
    {submission : SubmissionData} {vr : ValidationResult} {sid now : Nat}
    {s' : Store}
    (h : tierActionStep f store1 submission vr sid now = Except.ok s') :
    s'.submissions = store1.submissions := by
  unfold tierActionStep at h
  split at h
  · simp_all
  · split at h
    · exact (update_db_frame h).1
    · split at h
      · exact (queue_soft_frame h).1
      · split at h
        · exact (queue_manual_frame h).1
        · simp only [Except.ok.injEq] at h
          subst h
          rfl

theorem processAfterStore_submissions (f : Faults) (store1 : Store)
    (submission : SubmissionData) (vr : ValidationResult) (sid now : Nat) :
    (processAfterStore f store1 submission vr sid now).1.submissions =
      store1.submissions := by
  rw [processAfterStore]
  rcases heq : tierActionStep f store1 submission vr sid now with e | s2
  · rfl
  · exact tierActionStep_submissions heq

theorem processAfterStore_of_error {f : Faults} {store1 : Store}
    {submission : SubmissionData} {vr : ValidationResult} {sid now : Nat}
    {e : String}
    (h : tierActionStep f store1 submission vr sid now = Except.error e) :
    processAfterStore f store1 submission vr sid now =
      (store1, failureResult e) := by
  rw [processAfterStore, h]

theorem processAfterStore_of_ok {f : Faults} {store1 : Store}
    {submission : SubmissionData} {vr : ValidationResult} {sid now : Nat}
    {s2 : Store}
    (h : tierActionStep f store1 submission vr sid now = Except.ok s2) :
    processAfterStore f store1 submission vr sid now =
      (s2, successResult sid vr) := by
  rw [processAfterStore, h]


/-! ### The upsert and its key invariant -/

/-- The `pubs_updates` rows carrying a given (venue, beer, format)
triple. -/
def tripleRows (rows : List PubsUpdate) (pid bid : Nat)
    (beer_format : String) : List PubsUpdate :=
  rows.filter (tripleKey pid bid beer_format)

theorem tripleKey_self (pid bid : Nat) (bf : String) (t : Nat) :
    tripleKey pid bid bf { pub_id := pid, beer_id := bid, beer_format := bf
                           update_time := t } = true := by
  simp [tripleKey]

theorem tripleKey_update_time (pid bid : Nat) (bf : String)
    (r : PubsUpdate) (t : Nat) :
    tripleKey pid bid bf { r with update_time := t } =
      tripleKey pid bid bf r := by
  simp [tripleKey]

theorem tripleKey_fields {pid bid : Nat} {bf : String} {r : PubsUpdate}
    (h : tripleKey pid bid bf r = true) :
    r.pub_id = pid ∧ r.beer_id = bid ∧ r.beer_format = bf := by
  simp only [tripleKey, Bool.and_eq_true, beq_iff_eq] at h
  exact ⟨h.1.1, h.1.2, h.2⟩

theorem tripleRows_upsert {rows : List PubsUpdate} {pid bid : Nat}
    {bf : String} (t : Nat)
    (hinv : (tripleRows rows pid bid bf).length ≤ 1) :
    tripleRows (upsertPubsUpdate rows pid bid bf t) pid bid bf =
      [{ pub_id := pid, beer_id := bid, beer_format := bf
         update_time := t }] := by
  rw [upsertPubsUpdate]
  by_cases hany : rows.any (tripleKey pid bid bf) = true
  · rw [if_pos hany]
    have hmapfilter :
        tripleRows (rows.map fun r =>
            if tripleKey pid bid bf r then { r with update_time := t }
            else r) pid bid bf =
          (tripleRows rows pid bid bf).map fun r =>
            if tripleKey pid bid bf r then { r with update_time := t }
            else r := by
      rw [tripleRows, tripleRows, List.filter_map]
      congr 1
      apply List.filter_congr
      intro r _
      by_cases hk : tripleKey pid bid bf r = true
      · simp only [Function.comp_apply, hk, if_pos, tripleKey_update_time]
      · simp only [Function.comp_apply, Bool.not_eq_true] at hk
        simp [hk]
    rw [hmapfilter]
    -- `any` true means some row matches, so the filtered list is nonempty
    have hne : tripleRows rows pid bid bf ≠ [] := by
      rw [List.any_eq_true] at hany
      obtain ⟨r, hr, hk⟩ := hany
      intro hnil
      have : r ∈ tripleRows rows pid bid bf :=
        List.mem_filter.mpr ⟨hr, hk⟩
      rw [hnil] at this
      exact absurd this (List.not_mem_nil r)
    have hlen : (tripleRows rows pid bid bf).length = 1 := by
      have := List.length_pos.mpr hne
      omega
    obtain ⟨r0, hr0⟩ := List.length_eq_one.mp hlen
    rw [hr0]
    have hk0 : tripleKey pid bid bf r0 = true := by
      have : r0 ∈ tripleRows rows pid bid bf := by
        rw [hr0]; exact List.mem_singleton.mpr rfl
      exact (List.mem_filter.mp this).2
    obtain ⟨h1, h2, h3⟩ := tripleKey_fields hk0
    simp only [List.map_cons, List.map_nil, if_pos hk0]
    obtain ⟨rp, rb, rf, rt⟩ := r0
    simp only at h1 h2 h3
    subst h1; subst h2; subst h3
    rfl
  · rw [if_neg hany]
    have hzero : tripleRows rows pid bid bf = [] := by
      rw [tripleRows, List.filter_eq_nil_iff]
      intro r hr
      rw [Bool.not_eq_true]
      rw [List.any_eq_true] at hany
      by_contra hk
      rw [Bool.not_eq_false] at hk
      exact hany ⟨r, hr, hk⟩
    rw [tripleRows, List.filter_append, ← tripleRows, hzero]
    simp [tripleKey_self]

/-! ### Helper lemmas on the tier decision and the pub matcher -/

theorem determine_tier1_eq {ps : PubResult} {bs : BeerResult}
    (h1 : ps.status = .existing) (h2 : bs.status = .existing) :
    _determine_validation_tier ps bs =
      { tier := 1
        status := "auto_approved"
        message := "Approved instantly - we know this pub and beer combination"
        action := "update_database"
        delay_hours := none
        reasons := none
        pub_data := some ps
        beer_data := some bs } := by
  rw [_determine_validation_tier, if_pos ⟨h1, h2⟩]

theorem determine_action_update_database {ps : PubResult} {bs : BeerResult}
    (h : (_determine_validation_tier ps bs).action = "update_database") :
    ps.status = .existing ∧ bs.status = .existing := by
  by_contra hc
  rw [not_and_or] at hc
  rw [_determine_validation_tier] at h
  rw [if_neg (by tauto)] at h
  by_cases h2 : ps.status = .existing ∧ bs.status = .newBeerExistingBrewery
  · rw [if_pos h2] at h
    simp at h
  · rw [if_neg h2] at h
    simp at h

theorem validate_pub_existing_has_id {store : Store} {pd : PubData}
    (h : (_validate_pub store pd).status = .existing) :
    ∃ p, (_validate_pub store pd).pub_id = some p := by
  rw [_validate_pub] at h ⊢
  generalize (if pubIdTruthy pd.pub_id then pubByIdLookup store pd
              else none) = o1 at h ⊢
  cases o1 with
  | some p => exact ⟨p.pub_id, rfl⟩
  | none =>
    generalize (if pd.name ≠ "" ∧ pd.postcode ≠ "" then
                  pubByNamePostcodeLookup store pd
                else none) = o2 at h ⊢
    cases o2 with
    | some p => exact ⟨p.pub_id, rfl⟩
    | none =>
      generalize _find_similar_pubs store pd = l at h ⊢
      cases l with
      | nil => simp at h
      | cons m ms => simp at h

/-! ### Helper lemmas on the venue-format update -/

/-- The venue columns the tier-1 action never writes. -/
def venueNonFormatFields (p : Pub) : Nat × String × String × String :=
  (p.pub_id, p.name, p.address, p.postcode)

theorem setFormatFlag_nonformat (bf : String) (pid : Nat)
    (pubs : List Pub) :
    (setFormatFlag bf pid pubs).map venueNonFormatFields =
      pubs.map venueNonFormatFields := by
  rw [setFormatFlag]
  repeat' split
  all_goals try rfl
  all_goals
    rw [List.map_map]
    apply List.map_congr_left
    intro p _
    by_cases hp : p.pub_id = pid
    · simp [hp, venueNonFormatFields]
    · simp [hp]

theorem setFormatFlag_unknown {bf : String} (pid : Nat) (pubs : List Pub)
    (h1 : bf ≠ "bottle") (h2 : bf ≠ "tap") (h3 : bf ≠ "cask")
    (h4 : bf ≠ "can") :
    setFormatFlag bf pid pubs = pubs := by
  rw [setFormatFlag, if_neg h1, if_neg h2, if_neg h3, if_neg h4]

theorem setFormatFlag_other_pubs (bf : String) (pid : Nat)
    (pubs : List Pub) {q : Pub} (hq : q ∈ pubs) (hne : q.pub_id ≠ pid) :
    q ∈ setFormatFlag bf pid pubs := by
  rw [setFormatFlag]
  repeat' split
  all_goals try exact hq
  all_goals
    refine List.mem_map.mpr ⟨q, hq, ?_⟩
    rw [if_neg hne]

/-! ### Claim theorems -/

/-- C1: for every combination of pub status in {existing, similar, new}
and beer status in {existing, new_beer_existing_brewery, new_brewery,
incomplete}, `_determine_validation_tier` returns exactly one tier in
{1, 2, 3}, and the returned tier is 1 (with action `update_database`) if
and only if the pub status is `existing` and the beer status is
`existing`. -/
theorem claim_tier_totality_and_tier1_exclusivity
    (ps : PubResult) (bs : BeerResult) :
    ((_determine_validation_tier ps bs).tier = 1 ∨
     (_determine_validation_tier ps bs).tier = 2 ∨
     (_determine_validation_tier ps bs).tier = 3) ∧
    (((_determine_validation_tier ps bs).tier = 1 ∧
      (_determine_validation_tier ps bs).action = "update_database") ↔
      (ps.status = PubStatus.existing ∧ bs.status = BeerStatus.existing)) ∧
    ((_determine_validation_tier ps bs).tier = 1 ↔
      (ps.status = PubStatus.existing ∧ bs.status = BeerStatus.existing)) := by
  obtain ⟨pst, pid, pc, pm, psm⟩ := ps
  obtain ⟨bst, bid, bc, bm, bb⟩ := bs
  cases pst <;> cases bst <;> simp [_determine_validation_tier]

/-- C2: if any exception is raised inside the validation pipeline,
`validate_submission` catches it and returns a result with tier 3, status
`error` and action `manual_review`; whatever the exception, the result is
never tier 1 or tier 2. -/
theorem claim_validation_fail_closed (e : String) :
    validate_submission (Except.error e) = errorValidationResult ∧
    (validate_submission (Except.error e)).tier = 3 ∧
    (validate_submission (Except.error e)).status = "error" ∧
    (validate_submission (Except.error e)).action = "manual_review" ∧
    (validate_submission (Except.error e)).tier ≠ 1 ∧
    (validate_submission (Except.error e)).tier ≠ 2 := by
  refine ⟨rfl, rfl, rfl, rfl, ?_, ?_⟩ <;>
    simp [validate_submission, errorValidationResult]

/-- C2 witness: the fail-closed shape at a concrete exception. -/
theorem claim_validation_fail_closed_witness :
    (validate_submission (Except.error "connection refused")).tier = 3 ∧
    (validate_submission (Except.error "connection refused")).tier ≠ 1 :=
  ⟨(claim_validation_fail_closed "connection refused").2.1,
   (claim_validation_fail_closed "connection refused").2.2.2.2.1⟩

/-- C3 counterexample: two distinct exceptions during persistence produce
distinct results from `process_submission` (the `details` field carries
`str(e)`), refuting "for any two distinct underlying exceptions, the error
result returned to the caller is identical". -/
theorem claim_error_details_differ_counterexample :
    (process_submission ⟨none, some "deadlock", none⟩ ⟨[], [], [], [], []⟩
      ⟨none, none, none, none, none, none, none, none, none⟩ none 0).2 ≠
    (process_submission ⟨none, some "timeout", none⟩ ⟨[], [], [], [], []⟩
      ⟨none, none, none, none, none, none, none, none, none⟩ none 0).2 := by
  decide

/-- C3 (amended): whenever `process_submission` fails — on the audit
insert or on the tier-specific action — it returns `success = false` with
the constant generic message `"Failed to process submission"` in `error`,
but additionally exposes the underlying exception text in `details` — so
results for distinct exceptions differ exactly there, and internal error
detail does reach the caller. -/
theorem claim_process_failure_generic_message_with_details
    (e : String) (f : Faults) (store : Store)
    (submission : SubmissionData) (user : Option UserInfo) (now : Nat)
    (h : f.storeSubmission = some e ∨
      (f.storeSubmission = none ∧ f.tierAction = some e)) :
    (process_submission f store submission user now).2 =
      { success := false
        submission_id := none
        validation_result := none
        error := some "Failed to process submission"
        details := some e } := by
  obtain ⟨fv, fs, ft⟩ := f
  rcases h with h | ⟨h1, h2⟩
  · simp only at h
    subst h
    rfl
  · simp only at h1 h2
    subst h1
    subst h2
    exact congrArg Prod.snd
      (@processAfterStore_of_error ⟨fv, none, some e⟩
        (_store_submission store submission
          (validate_submission (pipelineAttempt ⟨fv, none, some e⟩ store
            submission)) user now).1
        submission
        (validate_submission (pipelineAttempt ⟨fv, none, some e⟩ store
          submission))
        (_store_submission store submission
          (validate_submission (pipelineAttempt ⟨fv, none, some e⟩ store
            submission)) user now).2
        now e rfl)

/-- C3 witness: the amended failure shape at a concrete exception. -/
theorem claim_process_failure_witness :
    (process_submission ⟨none, some "disk full", none⟩ ⟨[], [], [], [], []⟩
      ⟨none, none, none, none, none, none, none, none, none⟩ none 0).2 =
      { success := false
        submission_id := none
        validation_result := none
        error := some "Failed to process submission"
        details := some "disk full" } :=
  claim_process_failure_generic_message_with_details "disk full"
    ⟨none, some "disk full", none⟩ ⟨[], [], [], [], []⟩
    ⟨none, none, none, none, none, none, none, none, none⟩ none 0
    (Or.inl rfl)

/-- C4: when validation raises, the result's action `manual_review`
matches none of the three dispatch branches of `process_submission`, so
the error-path submission is recorded in the audit table, but no
validation-queue entry of any type is created for it (and no other table
is touched), while the call still reports success. -/
theorem claim_error_path_audited_not_queued (e : String) (store : Store)
    (submission : SubmissionData) (user : Option UserInfo) (now : Nat) :
    (validate_submission (Except.error e)).action = "manual_review" ∧
    (validate_submission (Except.error e)).action ≠ "update_database" ∧
    (validate_submission (Except.error e)).action ≠ "queue_soft_validation" ∧
    (validate_submission (Except.error e)).action ≠ "queue_manual_review" ∧
    (process_submission ⟨some e, none, none⟩ store submission user
      now).1.validation_queue = store.validation_queue ∧
    (process_submission ⟨some e, none, none⟩ store submission user
      now).1.pubs_updates = store.pubs_updates ∧
    (process_submission ⟨some e, none, none⟩ store submission user
      now).1.pubs = store.pubs ∧
    (process_submission ⟨some e, none, none⟩ store submission user
      now).1.submissions =
      store.submissions ++ [auditRow submission errorValidationResult user now] ∧
    (process_submission ⟨some e, none, none⟩ store submission user
      now).2.success = true := by
  refine ⟨rfl, ?_, ?_, ?_, rfl, rfl, rfl, rfl, rfl⟩ <;>
    simp [validate_submission, errorValidationResult]

/-- C4 witness: the error path at a concrete store and submission. -/
theorem claim_error_path_audited_not_queued_witness :
    (process_submission ⟨some "boom", none, none⟩ ⟨[], [], [], [], []⟩
      ⟨none, none, none, none, none, none, none, none, none⟩ none
      7).1.validation_queue = [] ∧
    (process_submission ⟨some "boom", none, none⟩ ⟨[], [], [], [], []⟩
      ⟨none, none, none, none, none, none, none, none, none⟩ none
      7).2.success = true :=
  ⟨(claim_error_path_audited_not_queued "boom" ⟨[], [], [], [], []⟩
      ⟨none, none, none, none, none, none, none, none, none⟩ none
      7).2.2.2.2.1,
   (claim_error_path_audited_not_queued "boom" ⟨[], [], [], [], []⟩
      ⟨none, none, none, none, none, none, none, none, none⟩ none
      7).2.2.2.2.2.2.2.2⟩


/-- C6 (code bug in the source): the claimed behavior — empty brewery or
beer name gives `incomplete` with no lookup performed (the result is a
constant independent of the store); otherwise the first row matching the
exact case-insensitive pair query gives `existing` with confidence 1.0
carrying the matched beer row (identity, style, ABV); otherwise a known
brewery (case-insensitive, trimmed, as in the SQL) gives
`new_beer_existing_brewery` with confidence 0.7 carrying the canonical
stored brewery name; otherwise `new_brewery` with confidence 0.0 — holds
of `_validate_beer` as intended and documented.  The source file itself
cannot exhibit it: the fallback branches are dedented out of the method,
a SyntaxError that stops the module from importing at all. -/
theorem claim_beer_matcher_cases (store : Store) (bd : BeerData) :
    (bd.brewery = "" ∨ bd.beer_name = "" →
      _validate_beer store bd =
        { status := BeerStatus.incomplete, beer_id := none
          confidence := none, matched_data := none
          matched_brewery := none }) ∧
    (bd.brewery ≠ "" → bd.beer_name ≠ "" →
      (∀ b, beerExactLookup store bd = some b →
        _validate_beer store bd =
          { status := BeerStatus.existing, beer_id := some b.beer_id
            confidence := some 1, matched_data := some b
            matched_brewery := none }) ∧
      (beerExactLookup store bd = none →
        (∀ canonical, breweryLookup store bd = some canonical →
          _validate_beer store bd =
            { status := BeerStatus.newBeerExistingBrewery, beer_id := none
              confidence := some 0.7, matched_data := none
              matched_brewery := some canonical }) ∧
        (breweryLookup store bd = none →
          _validate_beer store bd =
            { status := BeerStatus.newBrewery, beer_id := none
              confidence := some 0, matched_data := none
              matched_brewery := none }))) := by
  constructor
  · intro h
    rw [_validate_beer, if_pos h]
  · intro h1 h2
    have hne : ¬(bd.brewery = "" ∨ bd.beer_name = "") := by tauto
    refine ⟨?_, ?_⟩
    · intro b hb
      rw [_validate_beer, if_neg hne, hb]
    · intro hnone
      refine ⟨?_, ?_⟩
      · intro canonical hbr
        rw [_validate_beer, if_neg hne, hnone, hbr]
      · intro hbrn
        rw [_validate_beer, if_neg hne, hnone, hbrn]

/-- C6 witness: the four branches at concrete stores and descriptors. -/
theorem claim_beer_matcher_cases_witness :
    _validate_beer ⟨[], [⟨7, "Thornbridge", "Jaipur", "IPA", none⟩], [], [], []⟩
        ⟨"", "Jaipur", "", none, ""⟩ =
      { status := BeerStatus.incomplete, beer_id := none, confidence := none
        matched_data := none, matched_brewery := none } ∧
    _validate_beer ⟨[], [⟨7, "Thornbridge", "Jaipur", "IPA", none⟩], [], [], []⟩
        ⟨"thornbridge", "JAIPUR", "", none, ""⟩ =
      { status := BeerStatus.existing, beer_id := some 7
        confidence := some 1
        matched_data := some ⟨7, "Thornbridge", "Jaipur", "IPA", none⟩
        matched_brewery := none } ∧
    _validate_beer ⟨[], [⟨7, "Thornbridge", "Jaipur", "IPA", none⟩], [], [], []⟩
        ⟨"thornbridge", "Lager", "", none, ""⟩ =
      { status := BeerStatus.newBeerExistingBrewery, beer_id := none
        confidence := some 0.7, matched_data := none
        matched_brewery := some "Thornbridge" } ∧
    _validate_beer ⟨[], [⟨7, "Thornbridge", "Jaipur", "IPA", none⟩], [], [], []⟩
        ⟨"BrewDog", "Lager", "", none, ""⟩ =
      { status := BeerStatus.newBrewery, beer_id := none
        confidence := some 0, matched_data := none
        matched_brewery := none } := by
  refine ⟨(claim_beer_matcher_cases _ _).1 (Or.inl rfl),
    ((claim_beer_matcher_cases _ _).2 (by decide) (by decide)).1
      ⟨7, "Thornbridge", "Jaipur", "IPA", none⟩ (by decide),
    (((claim_beer_matcher_cases _ _).2 (by decide) (by decide)).2
      (by decide)).1 "Thornbridge" (by decide),
    (((claim_beer_matcher_cases _ _).2 (by decide) (by decide)).2
      (by decide)).2 (by decide)⟩

/-- C9: a present `pub_id` that matches no stored venue is not an error
and not a distinguished result: `_validate_pub` behaves exactly as if no
`pub_id` had been submitted, falling through to the exact name+postcode
check and then to fuzzy matching, and the result status is still one of
existing/similar/new. -/
theorem claim_pub_id_unknown_falls_through (store : Store) (pd : PubData)
    (htruthy : pubIdTruthy pd.pub_id = true)
    (hmiss : pubByIdLookup store pd = none) :
    _validate_pub store pd = _validate_pub store { pd with pub_id := none } ∧
    ((_validate_pub store pd).status = PubStatus.existing ∨
     (_validate_pub store pd).status = PubStatus.similar ∨
     (_validate_pub store pd).status = PubStatus.new) := by
  constructor
  · rw [_validate_pub, _validate_pub, if_pos htruthy, hmiss]
    rfl
  · generalize (_validate_pub store pd).status = s
    cases s
    · exact Or.inl rfl
    · exact Or.inr (Or.inl rfl)
    · exact Or.inr (Or.inr rfl)

/-- C9 witness: an unknown `pub_id` alongside an exactly matching
name+postcode still yields `existing`. -/
theorem claim_pub_id_unknown_falls_through_witness :
    _validate_pub
        ⟨[⟨42, "The Crown", "1 High St", "S1 2AB", false, false, false, false⟩],
          [], [], [], []⟩
        ⟨some 99, "the crown", "", "S1 2AB"⟩ =
      _validate_pub
        ⟨[⟨42, "The Crown", "1 High St", "S1 2AB", false, false, false, false⟩],
          [], [], [], []⟩
        ⟨none, "the crown", "", "S1 2AB"⟩ ∧
    (_validate_pub
        ⟨[⟨42, "The Crown", "1 High St", "S1 2AB", false, false, false, false⟩],
          [], [], [], []⟩
        ⟨some 99, "the crown", "", "S1 2AB"⟩).status = PubStatus.existing := by
  refine ⟨(claim_pub_id_unknown_falls_through _ _ (by decide) (by decide)).1, ?_⟩
  decide


/-- C5: every call of `process_submission` whose validation step completed
(i.e. that reaches step 2, the audit insert) appends exactly one row to
the `submissions` table, whatever tier was assigned and whether or not the
tier action later fails; and if the audit insert itself raises, the call
returns `success = false` and nothing at all is written (no tier action is
attempted). -/
theorem claim_audit_always (f : Faults) (store : Store)
    (submission : SubmissionData) (user : Option UserInfo) (now : Nat) :
    (f.storeSubmission = none →
      (process_submission f store submission user now).1.submissions =
        store.submissions ++
          [auditRow submission
            (validate_submission (pipelineAttempt f store submission))
            user now]) ∧
    (∀ e, f.storeSubmission = some e →
      (process_submission f store submission user now).2.success = false ∧
      (process_submission f store submission user now).1 = store) := by
  obtain ⟨fv, fs, ft⟩ := f
  constructor
  · intro h
    simp only at h
    subst h
    exact processAfterStore_submissions ⟨fv, none, ft⟩ _ submission _ _ now
  · intro e he
    simp only at he
    subst he
    exact ⟨rfl, rfl⟩

/-- C5 witness: one audit row appended on a completed validation, and the
no-write failure shape when the audit insert raises. -/
theorem claim_audit_always_witness :
    (process_submission ⟨some "lost connection", none, none⟩
      ⟨[], [], [], [], []⟩
      ⟨none, none, none, none, none, none, none, none, none⟩ none
      5).1.submissions =
      [auditRow ⟨none, none, none, none, none, none, none, none, none⟩
        errorValidationResult none 5] ∧
    (process_submission ⟨none, some "insert failed", none⟩
      ⟨[], [], [], [], []⟩
      ⟨none, none, none, none, none, none, none, none, none⟩ none
      5).2.success = false :=
  ⟨(claim_audit_always ⟨some "lost connection", none, none⟩
      ⟨[], [], [], [], []⟩
      ⟨none, none, none, none, none, none, none, none, none⟩ none 5).1 rfl,
   ((claim_audit_always ⟨none, some "insert failed", none⟩
      ⟨[], [], [], [], []⟩
      ⟨none, none, none, none, none, none, none, none, none⟩ none 5).2
      "insert failed" rfl).1⟩


/-- C8: applying the tier-1 `update_database` action twice for the
identical (venue, beer, format) triple leaves exactly one availability
record for that triple in `pubs_updates`, with its `update_time` advanced
to the second application's time — the insert is an upsert that refreshes
recency rather than duplicating rows.  (The hypothesis on the initial
store is the table's unique-key invariant: at most one row per triple.) -/
theorem claim_availability_upsert_idempotent (store : Store)
    (submission : SubmissionData) (vr : ValidationResult)
    (t1 t2 pid bid : Nat) (bf : String) (pr : PubResult) (bd : BeerResult)
    (hpd : vr.pub_data = some pr) (hpid : pr.pub_id = some pid)
    (hbf : submission.beer_format = some bf)
    (hbd : vr.beer_data = some bd) (hst : bd.status = BeerStatus.existing)
    (hbid : bd.beer_id = some bid)
    (hinv : (tripleRows store.pubs_updates pid bid bf).length ≤ 1) :
    ∃ s1 s2,
      _update_database_immediately store submission vr t1 = Except.ok s1 ∧
      _update_database_immediately s1 submission vr t2 = Except.ok s2 ∧
      tripleRows s2.pubs_updates pid bid bf =
        [{ pub_id := pid, beer_id := bid, beer_format := bf
           update_time := t2 }] ∧
      (s2.pubs_updates.filter (tripleKey pid bid bf)).length = 1 := by
  have hstep : ∀ (st : Store) (t : Nat),
      _update_database_immediately st submission vr t =
        Except.ok { st with
          pubs := setFormatFlag bf pid st.pubs
          pubs_updates := upsertPubsUpdate st.pubs_updates pid bid bf t } := by
    intro st t
    simp only [_update_database_immediately, hpd, hpid, hbf, hbd, hst, hbid,
      reduceIte]
  have h1 := @tripleRows_upsert store.pubs_updates pid bid bf t1 hinv
  have hinv1 : (tripleRows
      (upsertPubsUpdate store.pubs_updates pid bid bf t1) pid bid
      bf).length ≤ 1 := by
    rw [h1]
    exact le_refl 1
  have h2 := @tripleRows_upsert
    (upsertPubsUpdate store.pubs_updates pid bid bf t1) pid bid bf t2 hinv1
  refine ⟨_, _, hstep store t1, hstep _ t2, ?_, ?_⟩
  · exact h2
  · have : tripleRows ({ store with
        pubs := setFormatFlag bf pid (setFormatFlag bf pid store.pubs)
        pubs_updates := upsertPubsUpdate
          (upsertPubsUpdate store.pubs_updates pid bid bf t1)
          pid bid bf t2 } : Store).pubs_updates pid bid bf =
        [{ pub_id := pid, beer_id := bid, beer_format := bf
           update_time := t2 }] := h2
    rw [tripleRows] at this
    rw [this]
    rfl

/-- C8 witness: submitting the identical triple twice at times 100 and
200 leaves one row stamped 200. -/
theorem claim_availability_upsert_idempotent_witness :
    ∃ s1 s2,
      _update_database_immediately
        ⟨[⟨42, "The Crown", "x", "S1 2AB", false, false, false, false⟩],
          [], [], [], []⟩
        ⟨some 42, none, none, none, none, none, none, none, some "bottle"⟩
        { tier := 1, status := "auto_approved", message := "m"
          action := "update_database", delay_hours := none, reasons := none
          pub_data := some { status := PubStatus.existing, pub_id := some 42
                             confidence := 1, matched_name := none
                             similar_matches := none }
          beer_data := some { status := BeerStatus.existing
                              beer_id := some 7, confidence := some 1
                              matched_data := none
                              matched_brewery := none } } 100 =
        Except.ok s1 ∧
      _update_database_immediately s1
        ⟨some 42, none, none, none, none, none, none, none, some "bottle"⟩
        { tier := 1, status := "auto_approved", message := "m"
          action := "update_database", delay_hours := none, reasons := none
          pub_data := some { status := PubStatus.existing, pub_id := some 42
                             confidence := 1, matched_name := none
                             similar_matches := none }
          beer_data := some { status := BeerStatus.existing
                              beer_id := some 7, confidence := some 1
                              matched_data := none
                              matched_brewery := none } } 200 =
        Except.ok s2 ∧
      tripleRows s2.pubs_updates 42 7 "bottle" =
        [{ pub_id := 42, beer_id := 7, beer_format := "bottle"
           update_time := 200 }] ∧
      (s2.pubs_updates.filter (tripleKey 42 7 "bottle")).length = 1 := by
  refine claim_availability_upsert_idempotent _ _ _ 100 200 42 7 "bottle"
    _ _ rfl rfl rfl rfl rfl rfl ?_
  decide


/-- C7: in the fuzzy pub search, every candidate's confidence equals
`0.7 * name_similarity + 0.3 * postcode_similarity`, where both
similarities are the character-level `SequenceMatcher` ratios and lie in
[0, 1]; a candidate is kept if and only if its confidence is strictly
greater than 0.8 (exactly 0.8 is excluded); the kept candidates are
sorted by confidence in descending order and at most the top 3 are
returned. -/
theorem claim_fuzzy_similarity_pipeline (store : Store) (pd : PubData) :
    (∀ c ∈ fuzzyCandidates store pd,
      (similarMatchOf pd c).name_similarity =
        ratioQ (strLower pd.name).data (strLower c.name).data ∧
      (similarMatchOf pd c).postcode_similarity =
        ratioQ pd.postcode.data c.postcode.data ∧
      0 ≤ (similarMatchOf pd c).name_similarity ∧
      (similarMatchOf pd c).name_similarity ≤ 1 ∧
      0 ≤ (similarMatchOf pd c).postcode_similarity ∧
      (similarMatchOf pd c).postcode_similarity ≤ 1 ∧
      (similarMatchOf pd c).confidence =
        0.7 * (similarMatchOf pd c).name_similarity +
          0.3 * (similarMatchOf pd c).postcode_similarity ∧
      (similarMatchOf pd c ∈ keptMatches store pd ↔
        0.8 < (similarMatchOf pd c).confidence)) ∧
    _find_similar_pubs store pd =
      ((keptMatches store pd).mergeSort descConfidence).take 3 ∧
    List.Sorted (fun x y : SimilarMatch => y.confidence ≤ x.confidence)
      (_find_similar_pubs store pd) ∧
    (_find_similar_pubs store pd).length ≤ 3 ∧
    (∀ m ∈ _find_similar_pubs store pd,
      0.8 < m.confidence ∧
      m.confidence = 0.7 * m.name_similarity + 0.3 * m.postcode_similarity) := by
  have hconf : ∀ c, (similarMatchOf pd c).confidence =
      0.7 * (similarMatchOf pd c).name_similarity +
        0.3 * (similarMatchOf pd c).postcode_similarity := by
    intro c
    simp only [similarMatchOf]
    ring
  have hsorted : List.Sorted
      (fun x y : SimilarMatch => y.confidence ≤ x.confidence)
      ((keptMatches store pd).mergeSort descConfidence) := by
    have htrans : ∀ a b c : SimilarMatch, descConfidence a b = true →
        descConfidence b c = true → descConfidence a c = true := by
      intro a b c hab hbc
      simp only [descConfidence, decide_eq_true_eq] at hab hbc ⊢
      exact le_trans hbc hab
    have htot : ∀ a b : SimilarMatch,
        (descConfidence a b || descConfidence b a) = true := by
      intro a b
      rcases le_total b.confidence a.confidence with h | h
      · simp [descConfidence, h]
      · simp [descConfidence, h]
    have hp := List.sorted_mergeSort htrans htot (keptMatches store pd)
    exact hp.imp fun h => by
      simpa [descConfidence] using h
  refine ⟨?_, rfl, ?_, ?_, ?_⟩
  · intro c hc
    refine ⟨rfl, rfl, ratioQ_nonneg _ _, ratioQ_le_one _ _,
      ratioQ_nonneg _ _, ratioQ_le_one _ _, hconf c, ?_, ?_⟩
    · intro hm
      have := (List.mem_filter.mp hm).2
      simpa using this
    · intro hlt
      exact List.mem_filter.mpr
        ⟨List.mem_map_of_mem _ hc, by simpa using hlt⟩
  · exact hsorted.sublist (List.take_sublist 3 _)
  · exact List.length_take_le 3 _
  · intro m hm
    have hm1 : m ∈ (keptMatches store pd).mergeSort descConfidence :=
      List.mem_of_mem_take hm
    have hm2 : m ∈ keptMatches store pd := List.mem_mergeSort.mp hm1
    have hgt : 0.8 < m.confidence := by
      have := (List.mem_filter.mp hm2).2
      simpa using this
    refine ⟨hgt, ?_⟩
    have hmap : m ∈ (fuzzyCandidates store pd).map (similarMatchOf pd) :=
      (List.mem_filter.mp hm2).1
    obtain ⟨c, -, rfl⟩ := List.mem_map.mp hmap
    exact hconf c

/-- C7 witness: an identical name and postcode gives ratio 1 on both
components, confidence 1 > 0.8, and the candidate is kept. -/
theorem claim_fuzzy_similarity_pipeline_witness :
    similarMatchOf ⟨none, "ab", "", "AB1"⟩
        ⟨1, "ab", "", "AB1", false, false, false, false⟩ ∈
      keptMatches
        ⟨[⟨1, "ab", "", "AB1", false, false, false, false⟩], [], [], [], []⟩
        ⟨none, "ab", "", "AB1"⟩ ∧
    (similarMatchOf ⟨none, "ab", "", "AB1"⟩
        ⟨1, "ab", "", "AB1", false, false, false, false⟩).confidence =
      0.7 * (similarMatchOf ⟨none, "ab", "", "AB1"⟩
        ⟨1, "ab", "", "AB1", false, false, false, false⟩).name_similarity +
      0.3 * (similarMatchOf ⟨none, "ab", "", "AB1"⟩
        ⟨1, "ab", "", "AB1", false, false, false, false⟩).postcode_similarity := by
  have h := (claim_fuzzy_similarity_pipeline
    ⟨[⟨1, "ab", "", "AB1", false, false, false, false⟩], [], [], [], []⟩
    ⟨none, "ab", "", "AB1"⟩).1
    ⟨1, "ab", "", "AB1", false, false, false, false⟩ (by decide)
  have hname : ratioQ (strLower "ab").data (strLower "ab").data = 1 := by
    have hM : matchesTotal (strLower "ab").data (strLower "ab").data = 2 := by
      decide
    have hlen : (strLower "ab").data.length = 2 := by decide
    rw [ratioQ, hlen, hM]
    norm_num
  have hpc : ratioQ ("AB1" : String).data ("AB1" : String).data = 1 := by
    have hM : matchesTotal ("AB1" : String).data ("AB1" : String).data = 3 := by
      decide
    have hlen : ("AB1" : String).data.length = 3 := by decide
    rw [ratioQ, hlen, hM]
    norm_num
  have hconf : (similarMatchOf ⟨none, "ab", "", "AB1"⟩
      ⟨1, "ab", "", "AB1", false, false, false, false⟩).confidence = 1 := by
    simp only [similarMatchOf]
    rw [hname, hpc]
    norm_num
  have hlt : (0.8 : ℚ) < (similarMatchOf ⟨none, "ab", "", "AB1"⟩
      ⟨1, "ab", "", "AB1", false, false, false, false⟩).confidence := by
    rw [hconf]
    norm_num
  exact ⟨h.2.2.2.2.2.2.2.mpr hlt, h.2.2.2.2.2.2.1⟩


/-- C10: the tier-1 action dispatches on the raw `beer_format` field of
the submission, not on the normalizer's trimmed/lowercased format: a raw
value outside {bottle, tap, cask, can} (e.g. "Bottle") updates no venue
format column while the availability upsert still runs when the beer
matched (and nothing at all changes when it did not); in every case the
non-format venue columns are untouched; and when the `beer_format` key is
absent the action raises `KeyError`, so `process_submission` returns
`success = false` although the audit record was already written. -/
theorem claim_tier1_raw_format_dispatch :
    (∀ (store : Store) (submission : SubmissionData) (vr : ValidationResult)
       (now pid bid : Nat) (bf : String) (pr : PubResult) (bd : BeerResult),
      vr.pub_data = some pr → pr.pub_id = some pid →
      vr.beer_data = some bd → submission.beer_format = some bf →
      bf ∉ (["bottle", "tap", "cask", "can"] : List String) →
      ((bd.status = BeerStatus.existing → bd.beer_id = some bid →
        _update_database_immediately store submission vr now =
          Except.ok { store with
            pubs_updates :=
              upsertPubsUpdate store.pubs_updates pid bid bf now }) ∧
       (bd.status ≠ BeerStatus.existing →
        _update_database_immediately store submission vr now =
          Except.ok store))) ∧
    (∀ (store : Store) (submission : SubmissionData) (vr : ValidationResult)
       (now : Nat) (s' : Store),
      _update_database_immediately store submission vr now = Except.ok s' →
      s'.pubs.map venueNonFormatFields = store.pubs.map venueNonFormatFields) ∧
    (∀ (store : Store) (submission : SubmissionData)
       (user : Option UserInfo) (now : Nat),
      (validationPipeline store submission).action = "update_database" →
      submission.beer_format = none →
      (process_submission ⟨none, none, none⟩ store submission user
        now).2.success = false ∧
      (process_submission ⟨none, none, none⟩ store submission user
        now).2.error = some "Failed to process submission" ∧
      (process_submission ⟨none, none, none⟩ store submission user
        now).1.submissions =
        store.submissions ++
          [auditRow submission (validationPipeline store submission) user
            now] ∧
      (process_submission ⟨none, none, none⟩ store submission user
        now).1.pubs = store.pubs ∧
      (process_submission ⟨none, none, none⟩ store submission user
        now).1.pubs_updates = store.pubs_updates ∧
      (process_submission ⟨none, none, none⟩ store submission user
        now).1.validation_queue = store.validation_queue) := by
  refine ⟨?_, ?_, ?_⟩
  · intro store submission vr now pid bid bf pr bd hpd hpid hbd hbf hnot
    simp only [List.mem_cons, List.not_mem_nil, or_false, not_or] at hnot
    obtain ⟨h1, h2, h3, h4⟩ := hnot
    constructor
    · intro hex hbid
      simp only [_update_database_immediately, hpd, hpid, hbf, hbd, hex,
        hbid, reduceIte]
      rw [setFormatFlag_unknown pid store.pubs h1 h2 h3 h4]
    · intro hnex
      simp only [_update_database_immediately, hpd, hpid, hbf, hbd]
      rw [if_neg hnex, setFormatFlag_unknown pid store.pubs h1 h2 h3 h4]
  · intro store submission vr now s' hok
    unfold _update_database_immediately at hok
    repeat' split at hok
    all_goals simp_all
    all_goals subst hok
    all_goals exact setFormatFlag_nonformat _ _ _
  · intro store submission user now hact hbf
    rw [validationPipeline] at hact
    obtain ⟨hps1, hbs1⟩ := determine_action_update_database hact
    obtain ⟨pid, hpid⟩ := validate_pub_existing_has_id hps1
    have hvr : validationPipeline store submission =
        { tier := 1
          status := "auto_approved"
          message := "Approved instantly - we know this pub and beer combination"
          action := "update_database"
          delay_hours := none
          reasons := none
          pub_data := some (_validate_pub store (_extract_pub_data submission))
          beer_data :=
            some (_validate_beer store (_extract_beer_data submission)) } := by
      rw [validationPipeline]
      exact determine_tier1_eq hps1 hbs1
    have herr : ∀ st : Store,
        _update_database_immediately st submission
          (validationPipeline store submission) now =
          Except.error "KeyError: beer_format" := by
      intro st
      rw [hvr]
      simp only [_update_database_immediately, hpid, hbf]
    have hstep : ∀ (st : Store) (sid : Nat),
        tierActionStep ⟨none, none, none⟩ st submission
          (validationPipeline store submission) sid now =
          Except.error "KeyError: beer_format" := by
      intro st sid
      rw [tierActionStep]
      have hactq : (validationPipeline store submission).action =
          "update_database" := by
        rw [validationPipeline]
        exact hact
      simp only [hactq, reduceIte]
      exact herr st
    have hfull : process_submission ⟨none, none, none⟩ store submission
        user now =
        ((_store_submission store submission
            (validationPipeline store submission) user now).1,
          failureResult "KeyError: beer_format") :=
      processAfterStore_of_error
        (hstep (_store_submission store submission
            (validationPipeline store submission) user now).1
          (_store_submission store submission
            (validationPipeline store submission) user now).2)
    rw [hfull]
    exact ⟨rfl, rfl, rfl, rfl, rfl, rfl⟩

/-- C10 witness: a raw "Bottle" format (capitalised, so matching no format
column) still upserts the availability row when the beer matched; an
absent `beer_format` key on a tier-1 submission yields `success = false`
even though validation assigned action `update_database`. -/
theorem claim_tier1_raw_format_dispatch_witness :
    _update_database_immediately
      ⟨[⟨42, "The Crown", "x", "S1 2AB", false, false, false, false⟩],
        [], [], [], []⟩
      ⟨some 42, none, none, none, none, none, none, none, some "Bottle"⟩
      { tier := 1, status := "auto_approved", message := "m"
        action := "update_database", delay_hours := none, reasons := none
        pub_data := some { status := PubStatus.existing, pub_id := some 42
                           confidence := 1, matched_name := none
                           similar_matches := none }
        beer_data := some { status := BeerStatus.existing, beer_id := some 7
                            confidence := some 1, matched_data := none
                            matched_brewery := none } } 9 =
      Except.ok
        { pubs := [⟨42, "The Crown", "x", "S1 2AB", false, false, false,
            false⟩]
          beers := [], submissions := [], validation_queue := []
          pubs_updates := upsertPubsUpdate [] 42 7 "Bottle" 9 } ∧
    (process_submission ⟨none, none, none⟩
      ⟨[⟨42, "The Crown", "x", "S1 2AB", false, false, false, false⟩],
        [⟨7, "b", "c", "", none⟩], [], [], []⟩
      ⟨some 42, none, none, none, some "b", some "c", none, none, none⟩
      none 3).2.success = false := by
  constructor
  · exact (claim_tier1_raw_format_dispatch.1
      ⟨[⟨42, "The Crown", "x", "S1 2AB", false, false, false, false⟩],
        [], [], [], []⟩
      ⟨some 42, none, none, none, none, none, none, none, some "Bottle"⟩
      _ 9 42 7 "Bottle" _ _ rfl rfl rfl rfl (by decide)).1 rfl rfl
  · exact (claim_tier1_raw_format_dispatch.2.2
      ⟨[⟨42, "The Crown", "x", "S1 2AB", false, false, false, false⟩],
        [⟨7, "b", "c", "", none⟩], [], [], []⟩
      ⟨some 42, none, none, none, some "b", some "c", none, none, none⟩
      none 3 (by decide) rfl).1

end BeerValidation
